import Mathlib

/-!
Verification development for the kufar-parser-bot polling and extraction
pipeline. The definitions below are a shallow embedding of the TypeScript
sources: pure functions become Lean functions, the PostgreSQL tables and the
scheduler state become explicit state records, network calls and timers are
parameterised by their observed outcomes, and machine integers are modelled
as Nat (all counters and timestamps in the source are small nonnegative
numbers). Each definition cites the source file and lines it embeds.
-/

namespace KufarBot

/-! ### JavaScript string primitives used by the sources -/

/-- Lowercasing of one character as JavaScript toLowerCase acts on the
character ranges this code base uses: ASCII letters and the Cyrillic block
of the city tables (U+0410 to U+042F, plus the letter at U+0401). -/
def jsLowerChar (c : Char) : Char :=
  if 0x41 ≤ c.toNat ∧ c.toNat ≤ 0x5a then Char.ofNat (c.toNat + 0x20)
  else if 0x410 ≤ c.toNat ∧ c.toNat ≤ 0x42f then Char.ofNat (c.toNat + 0x20)
  else if c.toNat = 0x401 then Char.ofNat 0x451
  else c

/-- JavaScript String.toLowerCase restricted to the ranges above. -/
def jsToLower (s : String) : String := String.mk (s.toList.map jsLowerChar)

/-- The first list starts with the second list of characters. -/
def beginsWith : List Char → List Char → Bool
  | _, [] => true
  | [], _ :: _ => false
  | c :: cs, d :: ds => c == d && beginsWith cs ds

/-- Some suffix of the haystack starts with the needle. -/
def hasSubAux (needle : List Char) : List Char → Bool
  | [] => beginsWith [] needle
  | c :: t => beginsWith (c :: t) needle || hasSubAux needle t

/-- JavaScript String.includes: the needle occurs contiguously in the hay. -/
def strIncludes (hay needle : String) : Bool :=
  hasSubAux needle.toList hay.toList

/-- JavaScript String.startsWith. -/
def strBegins (hay needle : String) : Bool :=
  beginsWith hay.toList needle.toList

/-! ### Model of the WHATWG URL constructor -/

/-- The components of a successfully parsed URL that the sources read:
hostname, pathname and the search parameters. -/
structure URLParts where
  scheme : String
  hostname : String
  pathname : String
  searchParams : List (String × String)
deriving Repr, DecidableEq

/-- A URL scheme is one ASCII letter followed by letters, digits or
one of plus, minus, dot. -/
def schemeOk : List Char → Bool
  | [] => false
  | c :: cs =>
    c.isAlpha && cs.all (fun d => d.isAlpha || d.isDigit || d == '+' || d == '-' || d == '.')

/-- Split a character list at every separator; adjacent separators yield
empty segments, as JavaScript String.split does. -/
def splitOnChar (sep : Char) : List Char → List (List Char)
  | [] => [[]]
  | c :: rest =>
    let r := splitOnChar sep rest
    if c == sep then [] :: r
    else
      match r with
      | [] => [[c]]
      | seg :: segs => (c :: seg) :: segs

/-- One query segment splits at its first equals sign into key and value. -/
def parsePair (seg : List Char) : String × String :=
  let k := seg.takeWhile (fun c => c ≠ '=')
  match seg.drop k.length with
  | '=' :: v => (String.mk k, String.mk v)
  | _ => (String.mk k, "")

/-- A query string splits on ampersands, dropping empty segments. -/
def parseQuery (q : List Char) : List (String × String) :=
  ((splitOnChar '&' q).filter (fun seg => !seg.isEmpty)).map parsePair

/-- Model of the WHATWG URL constructor, new URL(url), at the fidelity the
sources rely on: parsing fails (the constructor throws) unless the string
has an alphabetic scheme followed by colon-slash-slash and a nonempty
authority; the host is lowercased by the parser itself; the pathname
defaults to a single slash; the query splits into key-value pairs.
Percent-decoding is not modelled because no call site depends on it. -/
def parseURL (s : String) : Option URLParts :=
  let cs := s.toList
  let scheme := cs.takeWhile (fun c => c ≠ ':')
  match cs.drop scheme.length with
  | ':' :: '/' :: '/' :: rest2 =>
    if schemeOk scheme then
      let auth := rest2.takeWhile (fun c => c ≠ '/' && c ≠ '?' && c ≠ '#')
      if auth.isEmpty then none
      else
        let hostname := jsToLower (String.mk (auth.takeWhile (fun c => c ≠ ':')))
        let after := rest2.drop auth.length
        let pathChars := after.takeWhile (fun c => c ≠ '?' && c ≠ '#')
        let pathname := if pathChars.isEmpty then "/" else String.mk pathChars
        let query :=
          match after.drop pathChars.length with
          | '?' :: qs => qs.takeWhile (fun c => c ≠ '#')
          | _ => []
        some { scheme := String.mk scheme, hostname := hostname,
               pathname := pathname, searchParams := parseQuery query }
    else none
  | _ => none

/-- JavaScript pathname.split(slash).filter(Boolean): the nonempty path
segments. Embeds the pathParts computation of KufarParser.parseUrl. -/
def pathPartsOf (pathname : String) : List String :=
  ((splitOnChar '/' pathname.toList).filter (fun seg => !seg.isEmpty)).map String.mk

/-- URLSearchParams.get: the value of the first pair with the given key. -/
def searchGet (params : List (String × String)) (k : String) : Option String :=
  (params.find? (fun kv => kv.1 == k)).map (fun kv => kv.2)

/-- JavaScript truthiness of an optional string: present and nonempty. -/
def truthyStr : Option String → Bool
  | some v => v ≠ ""
  | none => false

/-! ### Normalized ad records (src/types/index.ts, interface AdData) -/

/-- The extractor output record AdData of src/types/index.ts. Optional
fields are Option; the publication Date is an epoch-milliseconds Nat. -/
structure AdData where
  external_id : String
  title : String
  description : Option String := none
  price : Option String := none
  image_url : Option String := none
  ad_url : String
  location : Option String := none
  address : Option String := none
  published_at : Option Nat := none
deriving Repr, DecidableEq

/-! ### Platform identifiers (src/types/index.ts, type Platform) -/

/-- The Platform union type of src/types/index.ts (current revision). -/
inductive Platform where
  | kufar
  | onliner
deriving Repr, DecidableEq

/-! ### KufarParser lookup tables (src/parsers/KufarParser.ts, lines 74-142) -/

/-- Record lookup returning the stored value, as in TypeScript TABLE[key]. -/
def recordGet (tbl : List (String × String)) (k : String) : Option String :=
  (tbl.find? (fun kv => kv.1 == k)).map (fun kv => kv.2)

/-- CATEGORY_MAP of src/parsers/KufarParser.ts lines 74-101. -/
def CATEGORY_MAP : List (String × String) :=
  [("kvartiru", "1010"), ("komnatu", "1030"), ("dom", "1020"), ("dachu", "1020"),
   ("uchastok", "1050"), ("kommercheskaya", "1060"), ("garazh", "1040"),
   ("avtomobili", "2010"), ("mototsikly", "2020"), ("avtobusy-i-mikroavtobusy", "2030"),
   ("shiny-i-diski", "2100"),
   ("telefony-i-planshety", "17010"), ("noutbuki", "19020"), ("kompyutery", "19010"),
   ("televizory", "12030"), ("igrovye-pristavki-i-igry", "12040"), ("stiralnye-mashiny", "14050"),
   ("mebel", "15040"), ("velosipedy", "8030")]

/-- CITY_TO_REGION_ID of src/parsers/KufarParser.ts lines 109-128: the
hard-coded verified city or region token to Kufar rgn code table. -/
def CITY_TO_REGION_ID : List (String × String) :=
  [("minsk", "7"), ("brest", "1"), ("vitebsk", "6"), ("gomel", "2"),
   ("grodno", "3"), ("mogilev", "4"),
   ("minskaya-oblast", "5"), ("brestskaya-oblast", "1"), ("vitebskaya-oblast", "6"),
   ("gomelskaya-oblast", "2"), ("grodnenskaya-oblast", "3"), ("mogilevskaya-oblast", "4"),
   ("baranovichi", "1"), ("pinsk", "1"), ("kobrin", "1"), ("bereza", "1"),
   ("orsha", "6"), ("polotsk", "6"), ("novopolotsk", "6"),
   ("zhlobin", "2"), ("mozyr", "2"), ("rechitsa", "2"), ("svetlogorsk", "2"),
   ("lida", "3"), ("volkovysk", "3"), ("slonim", "3"),
   ("borisov", "5"), ("soligorsk", "5"), ("molodechno", "5"), ("zhodino", "5"), ("slutsk", "5"),
   ("bobruisk", "4")]

/-- CITY_VARIANTS of src/parsers/KufarParser.ts lines 134-142: alternate
Cyrillic spellings of each city slug, used by the secondary filter. -/
def CITY_VARIANTS : List (String × List String) :=
  [("minsk", ["минск", "первомайский", "московский", "ленинский", "заводской",
              "октябрьский", "фрунзенский", "партизанский", "советский", "центральный"]),
   ("brest", ["брест"]), ("baranovichi", ["барановичи"]), ("pinsk", ["пинск"]),
   ("kobrin", ["кобрин"]), ("bereza", ["береза"]),
   ("vitebsk", ["витебск"]), ("orsha", ["орша"]), ("polotsk", ["полоцк"]),
   ("novopolotsk", ["новополоцк"]),
   ("gomel", ["гомель"]), ("zhlobin", ["жлобин"]), ("mozyr", ["мозырь"]),
   ("rechitsa", ["речица"]), ("svetlogorsk", ["светлогорск"]),
   ("grodno", ["гродно"]), ("lida", ["лида"]), ("volkovysk", ["волковыск"]),
   ("slonim", ["слоним"]),
   ("mogilev", ["могилёв", "могилев"]), ("bobruisk", ["бобруйск"]),
   ("borisov", ["борисов"]), ("soligorsk", ["солигорск"]), ("molodechno", ["молодечно"]),
   ("zhodino", ["жодино"]), ("slutsk", ["слуцк"])]

/-! ### KufarParser.parseUrl facet extraction (src/parsers/KufarParser.ts, lines 161-220) -/

/-- The gtsy query-hint branch of KufarParser.parseUrl lines 182-190: the
first matching province substring fixes the region code, otherwise the empty
string is returned and the path tokens are consulted. -/
def gtsyRegion (g : String) : String :=
  if strIncludes g "province-minsk_gorod" then "7"
  else if strIncludes g "province-minskaja_oblast" then "5"
  else if strIncludes g "province-brestskaja_oblast" then "1"
  else if strIncludes g "province-vitebskaja_oblast" then "6"
  else if strIncludes g "province-gomelskaja_oblast" then "2"
  else if strIncludes g "province-grodnenskaja_oblast" then "3"
  else if strIncludes g "province-mogilevskaja_oblast" then "4"
  else ""

/-- The path-token loop of KufarParser.parseUrl lines 192-203: the first
path part present in CITY_TO_REGION_ID fixes the region code; when that part
is not a whole oblast, it is remembered as the city slug for the secondary
filter. -/
def pathRegion : List String → String × String
  | [] => ("", "")
  | p :: rest =>
    match recordGet CITY_TO_REGION_ID p with
    | some code => (code, if strIncludes p "-oblast" then "" else p)
    | none => pathRegion rest

/-- Region resolution of KufarParser.parseUrl lines 180-203: a truthy gtsy
hint that matches a known province wins; otherwise the path tokens decide;
otherwise the region stays empty (the facet is omitted). Returns the region
code and the city slug kept for the secondary filter. -/
def resolveRegion (gtsy : Option String) (pathParts : List String) : String × String :=
  let rgn := match gtsy with
    | some g => if g ≠ "" then gtsyRegion g else ""
    | none => ""
  if rgn ≠ "" then (rgn, "") else pathRegion pathParts

/-- The category loop of KufarParser.parseUrl lines 173-178. -/
def pathCategory : List String → String
  | [] => ""
  | p :: rest =>
    match recordGet CATEGORY_MAP p with
    | some c => c
    | none => pathCategory rest

/-- The query parameters forwarded to the Kufar API, KufarParser.parseUrl
lines 210-220: size and sort are fixed, cat, rgn and typ are included only
when nonempty, and only the safe keys prc, rms, gtsy, query are copied from
the original URL. -/
structure ApiParams where
  size : Nat := 30
  sort : String := "lst.d"
  cat : Option String := none
  rgn : Option String := none
  typ : Option String := none
  extra : List (String × String) := []
deriving Repr, DecidableEq

/-- The safe keys whitelist of KufarParser.parseUrl line 217. -/
def safeKeys : List String := ["prc", "rms", "gtsy", "query"]

/-- JavaScript object property assignment: replace the value in place when
the key exists, otherwise append the pair. -/
def objSet (obj : List (String × String)) (k v : String) : List (String × String) :=
  if obj.any (fun kv => kv.1 == k) then
    obj.map (fun kv => if kv.1 == k then (k, v) else kv)
  else obj ++ [(k, v)]

/-- Assign all pairs in order onto an object, later keys overwriting. -/
def objAssignAll (obj : List (String × String)) : List (String × String) → List (String × String)
  | [] => obj
  | kv :: rest => objAssignAll (objSet obj kv.1 kv.2) rest

/-- Assembly of the API parameters, KufarParser.parseUrl lines 166-220. -/
def kufarApiParams (urlObj : URLParts) : ApiParams :=
  let pathParts := pathPartsOf urlObj.pathname
  let cat := pathCategory pathParts
  let rs := resolveRegion (searchGet urlObj.searchParams "gtsy") pathParts
  let typ := if pathParts.contains "snyat" then "let"
             else if pathParts.contains "kupit" then "sell" else ""
  { cat := if cat ≠ "" then some cat else none,
    rgn := if rs.1 ≠ "" then some rs.1 else none,
    typ := if typ ≠ "" then some typ else none,
    extra := objAssignAll [] (urlObj.searchParams.filter (fun kv => safeKeys.contains kv.1)) }

/-! ### Raw Kufar API items and their normalization (KufarParser.ts lines 224-286) -/

/-- An image entry of a raw Kufar API item. -/
structure RawImage where
  path : Option String := none
  url : Option String := none
deriving Repr, DecidableEq

/-- One entry of ad_parameters or account_parameters of a raw item. -/
structure RawParam where
  p : String
  vl : Option String := none
  v : Option String := none
deriving Repr, DecidableEq

/-- A raw item as returned by the Kufar search API, with the fields the
parser reads. list_time is epoch milliseconds. -/
structure RawAd where
  ad_id : Option Nat := none
  subject : String := ""
  body : Option String := none
  price_byn : Option Nat := none
  price_usd : Option Nat := none
  images : List RawImage := []
  ad_link : String := ""
  ad_parameters : List RawParam := []
  account_parameters : List RawParam := []
  list_time : Nat := 0
deriving Repr, DecidableEq

/-- JavaScript truthiness of an optional number: present and nonzero. -/
def truthyNat : Option Nat → Bool
  | some n => n ≠ 0
  | none => false

/-- Two-digit left padding for the fractional part of a price. -/
def pad2 (m : Nat) : String :=
  if m < 10 then "0" ++ toString m else toString m

/-- JavaScript (n over 100).toFixed(2) for an integer minor-unit amount. -/
def formatMinor (n : Nat) : String :=
  toString (n / 100) ++ "." ++ pad2 (n % 100)

/-- The first parameter with label key, projected to its vl field. -/
def findParamVl (ps : List RawParam) (key : String) : Option String :=
  (ps.find? (fun q => q.p == key)).bind (fun q => q.vl)

/-- The first parameter with label key, projected to its v field. -/
def findParamV (ps : List RawParam) (key : String) : Option String :=
  (ps.find? (fun q => q.p == key)).bind (fun q => q.v)

/-- Normalization of one raw item, KufarParser.parseUrl lines 244-271:
price from the first populated currency, image from the CDN path or the
direct url, location from the area ad-parameter, address from the address
account-parameter, publication time from list_time. -/
def normalizeKufarAd (ad : RawAd) : AdData :=
  let priceStr :=
    if truthyNat ad.price_byn then formatMinor (ad.price_byn.getD 0) ++ " BYN"
    else if truthyNat ad.price_usd then formatMinor (ad.price_usd.getD 0) ++ " USD"
    else "Договорная"
  let imageUrl :=
    match ad.images with
    | [] => none
    | img :: _ =>
      if truthyStr img.path then some ("https://rms4.kufar.by/v1/gallery/" ++ img.path.getD "")
      else img.url
  let location := findParamVl ad.ad_parameters "area"
  let address := findParamV ad.account_parameters "address"
  { external_id := toString (ad.ad_id.getD 0),
    title := ad.subject,
    description := ad.body,
    price := some priceStr,
    image_url := imageUrl,
    ad_url := ad.ad_link,
    location := if truthyStr location then location else none,
    address := if truthyStr address then address else none,
    published_at := some ad.list_time }

/-- The temporary lowercased location string, the _rawLocation field of
KufarParser.parseUrl line 270. -/
def rawLocationOf (ad : RawAd) : String :=
  jsToLower ((findParamVl ad.ad_parameters "area").getD "")

/-- A processed ad before the temporary _rawLocation field is stripped. -/
structure ProcessedAd where
  ad : AdData
  rawLocation : String
deriving Repr, DecidableEq

/-- Mapping of one raw item to its processed form, lines 244-272. -/
def processKufarAd (raw : RawAd) : ProcessedAd :=
  { ad := normalizeKufarAd raw, rawLocation := rawLocationOf raw }

/-- Merge deduplication by ad_id, KufarParser.parseUrl lines 232-236: a
JavaScript Map keyed by truthy ad_id, later items overwriting in place,
values read back in first-insertion order. -/
def dedupByAdIdAux (acc : List RawAd) : List RawAd → List RawAd
  | [] => acc
  | ad :: rest =>
    if truthyNat ad.ad_id then
      if acc.any (fun b => b.ad_id == ad.ad_id) then
        dedupByAdIdAux (acc.map (fun b => if b.ad_id == ad.ad_id then ad else b)) rest
      else dedupByAdIdAux (acc ++ [ad]) rest
    else dedupByAdIdAux acc rest

/-- Deduplicated merge of the two API result lists. -/
def dedupByAdId (ads : List RawAd) : List RawAd := dedupByAdIdAux [] ads

/-- The variant table access of KufarParser.parseUrl line 276:
CITY_VARIANTS at the slug, or the singleton slug when absent. -/
def cityVariantsFor (slug : String) : List String :=
  match (CITY_VARIANTS.find? (fun kv => kv.1 == slug)).map (fun kv => kv.2) with
  | some vs => vs
  | none => [slug]

/-- The secondary city filter of KufarParser.parseUrl lines 278-281: keep
an item exactly when its lowercased location is nonempty and contains one of
the variant spellings of the target city. -/
def kufarCityFilter (slug : String) (ads : List ProcessedAd) : List ProcessedAd :=
  let variants := cityVariantsFor slug
  ads.filter (fun a => a.rawLocation ≠ "" && variants.any (fun v => strIncludes a.rawLocation v))

/-- KufarParser.parseUrl after the two API responses are in hand, lines
230-286: merge, dedup by ad_id, return empty when nothing remains,
normalize, apply the secondary city filter when a city slug was remembered
and no gtsy parameter was forwarded, then strip the temporary field. -/
def kufarParseUrl (urlObj : URLParts) (paginatedAds polepositionAds : List RawAd) : List AdData :=
  let pathParts := pathPartsOf urlObj.pathname
  let rs := resolveRegion (searchGet urlObj.searchParams "gtsy") pathParts
  let apiParams := kufarApiParams urlObj
  let uniqueAds := dedupByAdId (paginatedAds ++ polepositionAds)
  if uniqueAds.isEmpty then []
  else
    let processedAds := uniqueAds.map processKufarAd
    let filtered :=
      if rs.2 ≠ "" && !(truthyStr (searchGet apiParams.extra "gtsy")) then
        kufarCityFilter rs.2 processedAds
      else processedAds
    filtered.map (fun a => a.ad)

/-! ### URL validation (KufarParser.ts lines 152-159, OnlinerParser.ts lines 9-19, UrlValidator) -/

/-- KufarParser.validateUrl, src/parsers/KufarParser.ts lines 152-159: the
URL must parse, the host must contain kufar.by, and the path must start
with the /l/ or /re/ search prefixes; a constructor throw yields false. -/
def kufarValidateUrl (url : String) : Bool :=
  match parseURL url with
  | none => false
  | some u =>
    strIncludes u.hostname "kufar.by" &&
      (strBegins u.pathname "/l/" || strBegins u.pathname "/re/")

/-- OnlinerParser.validateUrl, src/parsers/OnlinerParser.ts lines 9-19. -/
def onlinerValidateUrl (url : String) : Bool :=
  match parseURL url with
  | none => false
  | some u =>
    strIncludes u.hostname "onliner.by" &&
      (strIncludes u.hostname "baraholka" || strIncludes u.hostname "ab" ||
        strIncludes u.hostname "r.onliner")

/-- UrlValidator.detectPlatform, src/utils/urlValidator.ts lines 3-19:
host-substring classification, none on a constructor throw or an unknown
host. -/
def detectPlatform (url : String) : Option Platform :=
  match parseURL url with
  | none => none
  | some u =>
    let hostname := jsToLower u.hostname
    if strIncludes hostname "kufar.by" then some Platform.kufar
    else if strIncludes hostname "onliner.by" then some Platform.onliner
    else none

/-! ### BaseParser.fetchWithRetry (src/parsers/BaseParser.ts lines 31-55) -/

/-- Observable events of one fetchWithRetry run: the numbered attempts and
the backoff sleeps in milliseconds. -/
inductive FetchEvent where
  | attempt (i : Nat)
  | sleepMs (ms : Nat)
deriving Repr, DecidableEq

/-- The retry loop of BaseParser.fetchWithRetry, parameterised by the
outcome of each network attempt (the list has one entry per configured
attempt, three by default). On success the body is returned at once; on the
last failure the error is rethrown; between attempts the loop sleeps
2 to the power i seconds after failed attempt i. -/
def fetchWithRetryAux (i : Nat) : List (Except String String) → List FetchEvent × Except String String
  | [] => ([], Except.error "All retry attempts failed")
  | out :: rest =>
    match out with
    | Except.ok body => ([FetchEvent.attempt i], Except.ok body)
    | Except.error e =>
      if rest.isEmpty then ([FetchEvent.attempt i], Except.error e)
      else
        let r := fetchWithRetryAux (i + 1) rest
        (FetchEvent.attempt i :: FetchEvent.sleepMs (2 ^ i * 1000) :: r.1, r.2)

/-- BaseParser.fetchWithRetry with attempt numbering starting at zero. -/
def fetchWithRetry (outcomes : List (Except String String)) : List FetchEvent × Except String String :=
  fetchWithRetryAux 0 outcomes

/-! ### Database rows and state (src/database/schema.sql and DatabaseService.ts) -/

/-- A row of the users table. -/
structure UserRow where
  id : Nat
  telegram_id : Nat
  username : Option String := none
deriving Repr, DecidableEq

/-- A row of the links table: a tracked query with its active flag,
consecutive-failure counter and last-polled timestamp. -/
structure LinkRow where
  id : Nat
  user_id : Nat
  url : String := ""
  platform : String := "kufar"
  is_active : Bool := true
  error_count : Nat := 0
  last_parsed_at : Option Nat := none
deriving Repr, DecidableEq

/-- A row of the ads table, as inserted by DatabaseService.createAd. The
created_at default column is not read anywhere and is omitted. -/
structure AdRow where
  id : Nat
  link_id : Nat
  external_id : String
  title : String
  description : Option String := none
  price : Option String := none
  image_url : Option String := none
  ad_url : String
  location : Option String := none
  address : Option String := none
  published_at : Option Nat := none
deriving Repr, DecidableEq

/-- The persistent state owned by the persistence gateway. -/
structure DBState where
  users : List UserRow := []
  links : List LinkRow := []
  ads : List AdRow := []
deriving Repr, DecidableEq

namespace DatabaseService

/-- SELECT star FROM links WHERE is_active = true (DatabaseService.getActiveLinks). -/
def getActiveLinks (db : DBState) : List LinkRow :=
  db.links.filter (fun l => l.is_active)

/-- UPDATE links SET error_count = error_count + 1 WHERE id = linkId. -/
def incrementErrorCount (db : DBState) (linkId : Nat) : DBState :=
  { db with links := db.links.map (fun l =>
      if l.id == linkId then { l with error_count := l.error_count + 1 } else l) }

/-- UPDATE links SET is_active = false WHERE id = linkId. -/
def markLinkInactive (db : DBState) (linkId : Nat) : DBState :=
  { db with links := db.links.map (fun l =>
      if l.id == linkId then { l with is_active := false } else l) }

/-- UPDATE links SET last_parsed_at = CURRENT_TIMESTAMP WHERE id = linkId. -/
def updateLastParsed (db : DBState) (linkId now : Nat) : DBState :=
  { db with links := db.links.map (fun l =>
      if l.id == linkId then { l with last_parsed_at := some now } else l) }

/-- UPDATE links SET error_count = 0 WHERE id = linkId. -/
def resetErrorCount (db : DBState) (linkId : Nat) : DBState :=
  { db with links := db.links.map (fun l =>
      if l.id == linkId then { l with error_count := 0 } else l) }

/-- SELECT star FROM links WHERE user_id = userId (DatabaseService.getUserLinks;
the created_at ordering is irrelevant to the lookups performed on it). -/
def getUserLinks (db : DBState) (userId : Nat) : List LinkRow :=
  db.links.filter (fun l => l.user_id == userId)

/-- SELECT star FROM users WHERE telegram_id = telegramId (DatabaseService.getUser). -/
def getUser (db : DBState) (telegramId : Nat) : Option UserRow :=
  db.users.find? (fun u => u.telegram_id == telegramId)

/-- SELECT star FROM users WHERE id = userId (DatabaseService.getUserById). -/
def getUserById (db : DBState) (userId : Nat) : Option UserRow :=
  db.users.find? (fun u => u.id == userId)

/-- DatabaseService.createAd, src/database/DatabaseService.ts lines 137-162:
INSERT INTO ads ON CONFLICT (link_id, external_id) DO NOTHING RETURNING star.
The conflict target is the composite unique index idx_ads_link_external of
the migration that replaced the original global uniqueness of external_id.
On conflict no row is returned (the caller sees a falsy result); otherwise
the new row is returned and appended. The SERIAL id is modelled as a fresh
number. -/
def createAd (db : DBState) (linkId : Nat) (a : AdData) : Option AdRow × DBState :=
  if db.ads.any (fun r => r.link_id == linkId && r.external_id == a.external_id) then
    (none, db)
  else
    let row : AdRow :=
      { id := db.ads.length + 1, link_id := linkId, external_id := a.external_id,
        title := a.title, description := a.description, price := a.price,
        image_url := a.image_url, ad_url := a.ad_url, location := a.location,
        address := a.address, published_at := a.published_at }
    (some row, { db with ads := db.ads ++ [row] })

/-- DatabaseService.isNewAd lines 167-170: no ads row at all carries this
external id, regardless of link. -/
def isNewAd (db : DBState) (externalId : String) : Bool :=
  !(db.ads.any (fun r => r.external_id == externalId))

/-- DatabaseService.isNewAdForLink lines 172-178: no ads row for this
(link, external id) pair. -/
def isNewAdForLink (db : DBState) (linkId : Nat) (externalId : String) : Bool :=
  !(db.ads.any (fun r => r.link_id == linkId && r.external_id == externalId))

end DatabaseService

/-! ### ParserScheduler (src/scheduler/ParserScheduler.ts) -/

/-- The observed outcome of ParserFactory.getParser plus parser.parseUrl for
one link in one cycle: no registered parser for the platform, a successful
extraction with its records, or a thrown extraction error. -/
inductive ParseOutcome where
  | noParser
  | ok (ads : List AdData)
  | err (msg : String)
deriving Repr, DecidableEq

/-- The in-process scheduler state: the lastNotificationTime map of
ParserScheduler (link id to epoch milliseconds). -/
structure SchedState where
  lastNotificationTime : List (Nat × Nat) := []
deriving Repr, DecidableEq

/-- Map.get with the JavaScript or-zero default of ParserScheduler line 85. -/
def lastNotifGet (s : SchedState) (linkId : Nat) : Nat :=
  (((s.lastNotificationTime.find? (fun kv => kv.1 == linkId)).map (fun kv => kv.2)).getD 0)

/-- Map.set semantics for lastNotificationTime. -/
def lastNotifSet (s : SchedState) (linkId now : Nat) : SchedState :=
  if s.lastNotificationTime.any (fun kv => kv.1 == linkId) then
    { lastNotificationTime := s.lastNotificationTime.map (fun kv =>
        if kv.1 == linkId then (linkId, now) else kv) }
  else
    { lastNotificationTime := s.lastNotificationTime ++ [(linkId, now)] }

/-- The combined result of scheduler processing: database, scheduler state
and the notifications handed to the bot (recipient telegram id and ad). -/
structure StepResult where
  db : DBState
  sched : SchedState
  notifs : List (Nat × AdRow)
deriving Repr, DecidableEq

/-- The per-ad body of the success path, ParserScheduler.parseLink lines
79-98: a globally-new external id is inserted; a row actually returned is
notified, subject to the one-per-minute-per-link throttle, to the user
looked up by DatabaseService.getUser. -/
def processAd (now : Nat) (link : LinkRow) (st : StepResult) (a : AdData) : StepResult :=
  if DatabaseService.isNewAd st.db a.external_id then
    match DatabaseService.createAd st.db link.id a with
    | (some row, db1) =>
      if 60000 ≤ now - lastNotifGet st.sched link.id then
        match DatabaseService.getUser db1 link.user_id with
        | some u =>
          { db := db1, sched := lastNotifSet st.sched link.id now,
            notifs := st.notifs ++ [(u.telegram_id, row)] }
        | none => { st with db := db1 }
      else { st with db := db1 }
    | (none, db1) => { st with db := db1 }
  else st

/-- The success path of ParserScheduler.parseLink lines 69-102: update the
last-parsed timestamp, reset the failure counter when the loaded row had a
nonzero one, then process each extracted record. -/
def parseLinkSuccess (now : Nat) (sched : SchedState) (db : DBState) (link : LinkRow)
    (ads : List AdData) : StepResult :=
  let db1 := DatabaseService.updateLastParsed db link.id now
  let db2 := if 0 < link.error_count then DatabaseService.resetErrorCount db1 link.id else db1
  ads.foldl (processAd now link) { db := db2, sched := sched, notifs := [] }

/-- The catch path of ParserScheduler.parseLink lines 103-114: increment the
failure counter, re-read the row through getUserLinks, and deactivate the
link when the counter has reached five. -/
def parseLinkCatch (db : DBState) (link : LinkRow) : DBState :=
  let db1 := DatabaseService.incrementErrorCount db link.id
  match (DatabaseService.getUserLinks db1 link.user_id).find? (fun l => l.id == link.id) with
  | some current =>
    if 5 ≤ current.error_count then DatabaseService.markLinkInactive db1 link.id else db1
  | none => db1

/-- The try block of ParserScheduler.parseLink lines 62-102: an extraction
error is a thrown exception; the no-parser case returns early with no
effect; a successful extraction runs the success path. -/
def parseLinkTry (now : Nat) (sched : SchedState) (db : DBState) (link : LinkRow)
    (outcome : ParseOutcome) : Except String StepResult :=
  match outcome with
  | ParseOutcome.noParser => Except.ok { db := db, sched := sched, notifs := [] }
  | ParseOutcome.ok ads => Except.ok (parseLinkSuccess now sched db link ads)
  | ParseOutcome.err m => Except.error m

/-- ParserScheduler.parseLink lines 61-115: the try block wrapped in the
per-query catch handler, which absorbs every error into failure accounting
and never rethrows. -/
def parseLink (now : Nat) (sched : SchedState) (db : DBState) (link : LinkRow)
    (outcome : ParseOutcome) : StepResult :=
  match parseLinkTry now sched db link outcome with
  | Except.ok r => r
  | Except.error _ => { db := parseLinkCatch db link, sched := sched, notifs := [] }

/-- Promise.all over one batch, ParserScheduler.runParsing line 44. The
per-link database effects are serialised through the shared pool. -/
def runBatch (now : Nat) (st : StepResult) (batch : List (LinkRow × ParseOutcome)) : StepResult :=
  batch.foldl (fun acc e =>
    let r := parseLink now acc.sched acc.db e.1 e.2
    { db := r.db, sched := r.sched, notifs := acc.notifs ++ r.notifs }) st

/-- links.slice(i, i + batchSize) partitioning of runParsing lines 41-50. -/
def chunksOf (n : Nat) : List α → List (List α)
  | [] => []
  | x :: xs => (x :: xs.take (n - 1)) :: chunksOf n (xs.drop (n - 1))
termination_by l => l.length
decreasing_by
  simp only [List.length_cons, List.length_drop]
  omega

/-- ParserScheduler.runParsing lines 32-59 after the active links are
loaded: process the links in batches of ten, each batch completing before
the next starts. -/
def runParsing (now : Nat) (sched : SchedState) (db : DBState)
    (entries : List (LinkRow × ParseOutcome)) : StepResult :=
  (chunksOf 10 entries).foldl (runBatch now) { db := db, sched := sched, notifs := [] }

/-! ### Notification selection of the interval scheduler revision

The repository also carries the interval-driven ParserScheduler revision
(the one with PARSE_INTERVAL_SECONDS), whose parseLink sorts the newly
inserted ads by publication date ascending and notifies only the last five
of the sorted list. -/

/-- The sort key of the comparator: published_at as epoch milliseconds, or
zero when absent. -/
def pubKey (a : AdRow) : Nat := a.published_at.getD 0

/-- The comparator relation of newAds.sort: ascending publication date. -/
def adLe (a b : AdRow) : Prop := pubKey a ≤ pubKey b

instance : DecidableRel adLe := fun a b => Nat.decLe (pubKey a) (pubKey b)

instance : IsTotal AdRow adLe := ⟨fun a b => Nat.le_total (pubKey a) (pubKey b)⟩

instance : IsTrans AdRow adLe := ⟨fun _ _ _ h1 h2 => Nat.le_trans h1 h2⟩

/-- newAds.sort by publication date ascending. JavaScript Array sort is
stable, so it is embedded as the stable insertion sort over the comparator
preorder. -/
def sortAdsByDate (l : List AdRow) : List AdRow := List.insertionSort adLe l

/-- sortedAds.slice(-5): the notification list is the last five elements of
the ascending-sorted new ads (all of them when fewer than five). -/
def adsToNotify (newAds : List AdRow) : List AdRow :=
  let s := sortAdsByDate newAds
  s.drop (s.length - 5)

/-! ### The single-cycle-in-flight discipline (ParserScheduler lines 19-59) -/

/-- External stimuli of the scheduler loop: an interval tick, and the
completion of the running cycle with its success flag. -/
inductive SchedulerInput where
  | tick
  | cycleDone (ok : Bool)
deriving Repr, DecidableEq

/-- Observable events: the warning logged for a skipped tick, a cycle
starting, a cycle finishing. -/
inductive SchedulerEvent where
  | warnSkipped
  | cycleStarted
  | cycleFinished (ok : Bool)
deriving Repr, DecidableEq

/-- One step of the scheduler loop state (the isRunning flag). A tick while
a cycle is running only logs a warning (lines 22-25); an idle tick starts
runParsing, which sets the flag before its first suspension (line 33); the
finally clause clears the flag when the cycle ends, successful or not
(lines 56-58). A completion while idle cannot occur and is a no-op. -/
def schedulerStep (running : Bool) : SchedulerInput → Bool × List SchedulerEvent
  | SchedulerInput.tick =>
    if running then (running, [SchedulerEvent.warnSkipped])
    else (true, [SchedulerEvent.cycleStarted])
  | SchedulerInput.cycleDone ok =>
    if running then (false, [SchedulerEvent.cycleFinished ok]) else (false, [])

/-- The scheduler loop over a whole input sequence, accumulating events. -/
def schedulerRun (running : Bool) : List SchedulerInput → Bool × List SchedulerEvent
  | [] => (running, [])
  | i :: rest =>
    let r1 := schedulerStep running i
    let r2 := schedulerRun r1.1 rest
    (r2.1, r1.2 ++ r2.2)

/-- The number of cycleStarted events in a trace. -/
def countStarts (evs : List SchedulerEvent) : Nat :=
  (evs.filter (fun e => e == SchedulerEvent.cycleStarted)).length

/-- The number of cycleFinished events in a trace. -/
def countFinishes (evs : List SchedulerEvent) : Nat :=
  (evs.filter (fun e =>
    match e with
    | SchedulerEvent.cycleFinished _ => true
    | _ => false)).length

/-! ### Accessors used in statements -/

/-- The stored links row with the given id, first match. -/
def findLink (db : DBState) (linkId : Nat) : Option LinkRow :=
  db.links.find? (fun l => l.id == linkId)

/-- Whether a fetch event is a network attempt. -/
def isAttempt : FetchEvent → Bool
  | FetchEvent.attempt _ => true
  | FetchEvent.sleepMs _ => false

/-- The number of network attempts in a fetch trace. -/
def countAttempts (evs : List FetchEvent) : Nat :=
  (evs.filter isAttempt).length

/-- The city-match predicate exactly as the specification words it, for
comparison against the implemented filter: case-insensitive substring match
in either direction between the reported location and a variant. -/
def specCityMatchEitherDirection (variants : List String) (rawLoc : String) : Bool :=
  variants.any (fun v => strIncludes rawLoc v || strIncludes v rawLoc)

/-- The pairwise key-uniqueness invariant of the ads table: at most one row
per (link id, external id) pair. -/
def AdsInv (db : DBState) : Prop :=
  db.ads.Pairwise (fun r s => r.link_id ≠ s.link_id ∨ r.external_id ≠ s.external_id)

/-- A sequence of insert attempts against the ads table. -/
def applyCreates (db : DBState) : List (Nat × AdData) → DBState
  | [] => db
  | c :: rest => applyCreates (DatabaseService.createAd db c.1 c.2).2 rest

/-! ## Theorems -/

/-- Region resolution without a gtsy hint is exactly the path-token loop. -/
lemma resolveRegion_none (l : List String) : resolveRegion none l = pathRegion l := by
  simp [resolveRegion]

/-- When no path token is in the region table, the loop resolves nothing. -/
lemma pathRegion_eq_empty {l : List String}
    (h : ∀ p ∈ l, recordGet CITY_TO_REGION_ID p = none) : pathRegion l = ("", "") := by
  induction l with
  | nil => rfl
  | cons p rest ih =>
    have hp := h p (List.mem_cons_self p rest)
    simp only [pathRegion, hp]
    exact ih (fun q hq => h q (List.mem_cons_of_mem p hq))

/-- C8: region-code resolution for Kufar follows the hard-coded verified
lookup table: a Minsk-city hint (gtsy containing province-minsk_gorod, or
the path token minsk) resolves to region code 7 and not the Minsk-region
code 5; vitebsk resolves to 6, gomel to 2, grodno to 3, mogilev to 4; an
explicit gtsy query hint takes precedence over path-token matching; and if
neither resolves, the rgn facet is omitted from the API parameters. -/
theorem claim_C8_region_codes :
    (recordGet CITY_TO_REGION_ID "minsk" = some "7" ∧
     recordGet CITY_TO_REGION_ID "minskaya-oblast" = some "5" ∧
     recordGet CITY_TO_REGION_ID "vitebsk" = some "6" ∧
     recordGet CITY_TO_REGION_ID "gomel" = some "2" ∧
     recordGet CITY_TO_REGION_ID "grodno" = some "3" ∧
     recordGet CITY_TO_REGION_ID "mogilev" = some "4") ∧
    (∀ g path, g ≠ "" → strIncludes g "province-minsk_gorod" = true →
      (resolveRegion (some g) path).1 = "7") ∧
    (∀ pre post, (∀ p ∈ pre, recordGet CITY_TO_REGION_ID p = none) →
      (resolveRegion none (pre ++ "minsk" :: post)).1 = "7") ∧
    (∀ g path, g ≠ "" → gtsyRegion g ≠ "" →
      (resolveRegion (some g) path).1 = gtsyRegion g) ∧
    (∀ urlObj : URLParts,
      (∀ g, searchGet urlObj.searchParams "gtsy" = some g → g = "" ∨ gtsyRegion g = "") →
      (∀ p ∈ pathPartsOf urlObj.pathname, recordGet CITY_TO_REGION_ID p = none) →
      (kufarApiParams urlObj).rgn = none) := by
  refine ⟨⟨by decide, by decide, by decide, by decide, by decide, by decide⟩, ?_, ?_, ?_, ?_⟩
  · intro g path hg hinc
    simp [resolveRegion, gtsyRegion, hg, hinc]
  · intro pre post h
    induction pre with
    | nil =>
      rw [List.nil_append, resolveRegion_none]
      simp only [pathRegion]
      rw [show recordGet CITY_TO_REGION_ID "minsk" = some "7" from by decide]
    | cons p rest ih =>
      have hp := h p (List.mem_cons_self p rest)
      rw [List.cons_append, resolveRegion_none]
      simp only [pathRegion, hp]
      rw [← resolveRegion_none]
      exact ih (fun q hq => h q (List.mem_cons_of_mem p hq))
  · intro g path hg hr
    simp [resolveRegion, hg, hr]
  · intro urlObj hg hpath
    have hrgn : (resolveRegion (searchGet urlObj.searchParams "gtsy")
        (pathPartsOf urlObj.pathname)).1 = "" := by
      cases hs : searchGet urlObj.searchParams "gtsy" with
      | none =>
        rw [resolveRegion_none, pathRegion_eq_empty hpath]
      | some g =>
        rcases hg g hs with h0 | h0
        · subst h0
          simp only [resolveRegion, ne_eq, not_true_eq_false, if_false, ite_false]
          rw [pathRegion_eq_empty hpath]
        · by_cases hge : g = ""
          · subst hge
            simp only [resolveRegion]
            rw [if_neg (by simp), pathRegion_eq_empty hpath]
          · simp only [resolveRegion, if_pos hge, h0]
            rw [if_neg (by simp), pathRegion_eq_empty hpath]
    simp only [kufarApiParams]
    rw [hrgn]
    simp

/-- Witness for C8 at concrete inputs: a gtsy hint naming Minsk city wins
over a path token that would give the Minsk-region code 5. -/
theorem claim_C8_region_codes_witness :
    (("zapolie-province-minsk_gorod" ≠ "" ∧
      strIncludes "zapolie-province-minsk_gorod" "province-minsk_gorod" = true) ∧
     (resolveRegion (some "zapolie-province-minsk_gorod") ["l", "minskaya-oblast"]).1 = "7") ∧
    (resolveRegion none (["l", "snyat", "kvartiru"] ++ "minsk" :: [])).1 = "7" :=
  ⟨⟨⟨by decide, by decide⟩,
    claim_C8_region_codes.2.1 "zapolie-province-minsk_gorod" ["l", "minskaya-oblast"]
      (by decide) (by decide)⟩,
   claim_C8_region_codes.2.2.1 ["l", "snyat", "kvartiru"] [] (by decide)⟩

/-- C10: the URL validators and the platform classifier are total: a string
the URL constructor rejects yields false (or none for the classifier); a
parsed Kufar-host URL whose path lacks the search-page prefixes yields
false; a parsed URL on an unknown host classifies to none. -/
theorem claim_C10_validators_total :
    (∀ s, parseURL s = none →
      kufarValidateUrl s = false ∧ onlinerValidateUrl s = false ∧ detectPlatform s = none) ∧
    (∀ s u, parseURL s = some u →
      strBegins u.pathname "/l/" = false → strBegins u.pathname "/re/" = false →
      kufarValidateUrl s = false) ∧
    (∀ s u, parseURL s = some u →
      strIncludes (jsToLower u.hostname) "kufar.by" = false →
      strIncludes (jsToLower u.hostname) "onliner.by" = false →
      detectPlatform s = none) := by
  refine ⟨?_, ?_, ?_⟩
  · intro s h
    refine ⟨?_, ?_, ?_⟩ <;> simp [kufarValidateUrl, onlinerValidateUrl, detectPlatform, h]
  · intro s u h h1 h2
    simp [kufarValidateUrl, h, h1, h2]
  · intro s u h h1 h2
    simp [detectPlatform, h, h1, h2]

/-- Witness for C10 at concrete inputs: a scheme-less string is rejected by
the Kufar validator, and a Kufar item permalink fails the search-shape
check. -/
theorem claim_C10_validators_total_witness :
    (parseURL "kufar.by-l-minsk" = none ∧ kufarValidateUrl "kufar.by-l-minsk" = false) ∧
    (parseURL "https://kufar.by/item/12345" =
        some { scheme := "https", hostname := "kufar.by", pathname := "/item/12345",
               searchParams := [] } ∧
      kufarValidateUrl "https://kufar.by/item/12345" = false) :=
  ⟨⟨by decide, ((claim_C10_validators_total.1 "kufar.by-l-minsk" (by decide)).1)⟩,
   ⟨by decide,
    claim_C10_validators_total.2.1 "https://kufar.by/item/12345"
      { scheme := "https", hostname := "kufar.by", pathname := "/item/12345",
        searchParams := [] }
      (by decide) (by decide) (by decide)⟩⟩

/-- Counterexample to C6 as stated: in a run where all three default
attempts fail, the trace is attempt 0, a one-second sleep, attempt 1, a
two-second sleep, attempt 2, and the last error is thrown; no four-second
wait ever occurs after failed attempt 2, contradicting the claimed waits of
1s, 2s, 4s for attempts 0, 1, 2 respectively. -/
theorem claim_C6_counterexample :
    fetchWithRetry [Except.error "e1", Except.error "e2", Except.error "e3"] =
      ([FetchEvent.attempt 0, FetchEvent.sleepMs 1000, FetchEvent.attempt 1,
        FetchEvent.sleepMs 2000, FetchEvent.attempt 2], Except.error "e3") ∧
    FetchEvent.sleepMs 4000 ∉
      (fetchWithRetry [Except.error "e1", Except.error "e2", Except.error "e3"]).1 := by
  exact ⟨rfl, by decide⟩

/-- C6 amended: fetchWithRetry makes at most three attempts; a backoff wait
of 2 to the power i seconds follows failed attempt i only when a next
attempt remains (1s after attempt 0, 2s after attempt 1, never 4s); after
the last attempt fails the last error is thrown without further waiting. -/
theorem claim_C6_fetch_backoff (o0 o1 o2 : Except String String) :
    countAttempts (fetchWithRetry [o0, o1, o2]).1 ≤ 3 ∧
    (∀ ms, FetchEvent.sleepMs ms ∈ (fetchWithRetry [o0, o1, o2]).1 →
      ms = 1000 ∨ ms = 2000) ∧
    ((∃ e, o0 = Except.error e) →
      FetchEvent.sleepMs 1000 ∈ (fetchWithRetry [o0, o1, o2]).1) ∧
    ((∃ e e', o0 = Except.error e ∧ o1 = Except.error e') →
      FetchEvent.sleepMs 2000 ∈ (fetchWithRetry [o0, o1, o2]).1) ∧
    (∀ e0 e1 e2, o0 = Except.error e0 → o1 = Except.error e1 → o2 = Except.error e2 →
      (fetchWithRetry [o0, o1, o2]).2 = Except.error e2) := by
  cases o0 <;> cases o1 <;> cases o2 <;>
    simp [fetchWithRetry, fetchWithRetryAux, countAttempts, isAttempt]

/-- Witness for C6 amended at a concrete all-failing run. -/
theorem claim_C6_fetch_backoff_witness :
    FetchEvent.sleepMs 2000 ∈
      (fetchWithRetry [Except.error "a", Except.error "b", Except.error "c"]).1 ∧
    (fetchWithRetry [Except.error "a", Except.error "b", Except.error "c"]).2 =
      Except.error "c" :=
  ⟨(claim_C6_fetch_backoff (Except.error "a") (Except.error "b")
      (Except.error "c")).2.2.2.1 ⟨"a", "b", rfl, rfl⟩,
   (claim_C6_fetch_backoff (Except.error "a") (Except.error "b")
      (Except.error "c")).2.2.2.2 "a" "b" "c" rfl rfl rfl⟩

/-- Counterexample to C7 as stated: for the tracked query narrowed to the
city brest, an item whose reported location is a strict prefix of the
variant spelling matches in the spec's either-direction sense (the variant
contains the item location), yet the implemented filter drops it, because
the code only tests whether the item location contains the variant. -/
theorem claim_C7_counterexample :
    kufarParseUrl
        { scheme := "https", hostname := "www.kufar.by",
          pathname := "/l/brest/snyat/kvartiru", searchParams := [] }
        [{ ad_id := some 101, subject := "x", ad_link := "u",
           ad_parameters := [{ p := "area", vl := some "Брес" }] }] [] = [] ∧
    specCityMatchEitherDirection (cityVariantsFor "brest")
        (rawLocationOf
          { ad_id := some 101, subject := "x", ad_link := "u",
            ad_parameters := [{ p := "area", vl := some "Брес" }] }) = true := by
  exact ⟨by decide, by decide⟩

/-- C7 amended: when the query narrowed to a single non-oblast city and no
gtsy parameter was forwarded, the output is exactly the normalization of
those merged items whose lowercased reported coarse location is nonempty
and contains one of the known variant spellings of that city (one-direction
substring, case-insensitive through lowering). -/
theorem claim_C7_city_filter (urlObj : URLParts) (pag pole : List RawAd)
    (hslug : (resolveRegion (searchGet urlObj.searchParams "gtsy")
        (pathPartsOf urlObj.pathname)).2 ≠ "")
    (hngtsy : truthyStr (searchGet (kufarApiParams urlObj).extra "gtsy") = false)
    (hne : dedupByAdId (pag ++ pole) ≠ []) :
    kufarParseUrl urlObj pag pole =
      ((dedupByAdId (pag ++ pole)).filter (fun ad =>
          rawLocationOf ad ≠ "" &&
          (cityVariantsFor (resolveRegion (searchGet urlObj.searchParams "gtsy")
              (pathPartsOf urlObj.pathname)).2).any
            (fun v => strIncludes (rawLocationOf ad) v))).map normalizeKufarAd := by
  have hemp : (dedupByAdId (pag ++ pole)).isEmpty = false := by
    cases h : dedupByAdId (pag ++ pole) with
    | nil => exact absurd h hne
    | cons a l => rfl
  simp only [kufarParseUrl, hemp, Bool.false_eq_true, if_false, ite_false]
  rw [if_pos (by simp [hslug, hngtsy])]
  rw [kufarCityFilter, List.filter_map, List.map_map]
  rfl

/-- Witness for C7 amended: a Brest query keeps exactly the item located in
Brest and drops the one located in Minsk. -/
theorem claim_C7_city_filter_witness :
    ((resolveRegion (searchGet
        ([] : List (String × String)) "gtsy")
        (pathPartsOf "/l/brest/snyat/kvartiru")).2 ≠ "" ∧
      dedupByAdId
        ([{ ad_id := some 1, subject := "a", ad_link := "ua",
            ad_parameters := [{ p := "area", vl := some "Брест" }] },
          { ad_id := some 2, subject := "b", ad_link := "ub",
            ad_parameters := [{ p := "area", vl := some "Минск" }] }] ++ []) ≠ []) ∧
    kufarParseUrl
        { scheme := "https", hostname := "www.kufar.by",
          pathname := "/l/brest/snyat/kvartiru", searchParams := [] }
        [{ ad_id := some 1, subject := "a", ad_link := "ua",
           ad_parameters := [{ p := "area", vl := some "Брест" }] },
         { ad_id := some 2, subject := "b", ad_link := "ub",
           ad_parameters := [{ p := "area", vl := some "Минск" }] }] [] =
      [normalizeKufarAd
        { ad_id := some 1, subject := "a", ad_link := "ua",
          ad_parameters := [{ p := "area", vl := some "Брест" }] }] :=
  ⟨⟨by decide, by decide⟩,
   (claim_C7_city_filter
      { scheme := "https", hostname := "www.kufar.by",
        pathname := "/l/brest/snyat/kvartiru", searchParams := [] }
      [{ ad_id := some 1, subject := "a", ad_link := "ua",
         ad_parameters := [{ p := "area", vl := some "Брест" }] },
       { ad_id := some 2, subject := "b", ad_link := "ub",
         ad_parameters := [{ p := "area", vl := some "Минск" }] }] []
      (by decide) (by decide) (by decide)).trans (by decide)⟩

/-- One insert preserves the per-(link, external id) uniqueness of ads. -/
lemma createAd_inv {db : DBState} {linkId : Nat} {a : AdData} (h : AdsInv db) :
    AdsInv (DatabaseService.createAd db linkId a).2 := by
  by_cases hc : db.ads.any (fun r => r.link_id == linkId && r.external_id == a.external_id) = true
  · have he : DatabaseService.createAd db linkId a = (none, db) := by
      unfold DatabaseService.createAd
      rw [if_pos hc]
    rw [he]
    exact h
  · have hrow : (DatabaseService.createAd db linkId a).2.ads = db.ads ++
        [{ id := db.ads.length + 1, link_id := linkId, external_id := a.external_id,
           title := a.title, description := a.description, price := a.price,
           image_url := a.image_url, ad_url := a.ad_url, location := a.location,
           address := a.address, published_at := a.published_at }] := by
      unfold DatabaseService.createAd
      rw [if_neg hc]
    unfold AdsInv
    rw [hrow, List.pairwise_append]
    refine ⟨h, List.pairwise_singleton _ _, ?_⟩
    intro r hr s hs
    simp only [List.mem_singleton] at hs
    subst hs
    have hfalse : db.ads.any
        (fun r => r.link_id == linkId && r.external_id == a.external_id) = false := by
      simpa using hc
    have hcf := List.any_eq_false.mp hfalse r hr
    simp only [Bool.and_eq_true, beq_iff_eq, not_and] at hcf
    by_cases hl : r.link_id = linkId
    · exact Or.inr (hcf hl)
    · exact Or.inl hl

/-- The links table is untouched by an ads insert. -/
lemma createAd_links (db : DBState) (linkId : Nat) (a : AdData) :
    (DatabaseService.createAd db linkId a).2.links = db.links := by
  unfold DatabaseService.createAd
  split <;> rfl

/-- C1: ad deduplication is scoped per tracked query: any sequence of
insert attempts preserves at-most-one row per (link id, external id); an
insert of an already-present pair reports not-newly-inserted and leaves the
state unchanged; an insert of an absent pair succeeds, even when the same
external id is already stored under a different link; and a state holding
the same external id under two different links is reachable. -/
theorem claim_C1_dedup_per_query :
    (∀ (db : DBState) (calls : List (Nat × AdData)),
      AdsInv db → AdsInv (applyCreates db calls)) ∧
    (∀ (db : DBState) (linkId : Nat) (a : AdData),
      (∃ r ∈ db.ads, r.link_id = linkId ∧ r.external_id = a.external_id) →
      DatabaseService.createAd db linkId a = (none, db)) ∧
    (∀ (db : DBState) (linkId : Nat) (a : AdData),
      (∀ r ∈ db.ads, ¬(r.link_id = linkId ∧ r.external_id = a.external_id)) →
      (DatabaseService.createAd db linkId a).1.isSome = true ∧
      ∃ r ∈ (DatabaseService.createAd db linkId a).2.ads,
        r.link_id = linkId ∧ r.external_id = a.external_id) ∧
    ((∃ r ∈ (applyCreates {}
          [(1, { external_id := "e", title := "t", ad_url := "u" }),
           (2, { external_id := "e", title := "t", ad_url := "u" })]).ads,
        r.link_id = 1 ∧ r.external_id = "e") ∧
     (∃ r ∈ (applyCreates {}
          [(1, { external_id := "e", title := "t", ad_url := "u" }),
           (2, { external_id := "e", title := "t", ad_url := "u" })]).ads,
        r.link_id = 2 ∧ r.external_id = "e")) := by
  refine ⟨?_, ?_, ?_, by decide⟩
  · intro db calls
    induction calls generalizing db with
    | nil => exact fun h => h
    | cons c rest ih => exact fun h => ih _ (createAd_inv h)
  · intro db linkId a h
    have hct : db.ads.any
        (fun r => r.link_id == linkId && r.external_id == a.external_id) = true := by
      rcases h with ⟨r, hr, h1, h2⟩
      exact List.any_eq_true.mpr ⟨r, hr, by simp [h1, h2]⟩
    unfold DatabaseService.createAd
    rw [if_pos hct]
  · intro db linkId a h
    have hcf : db.ads.any
        (fun r => r.link_id == linkId && r.external_id == a.external_id) = false := by
      apply List.any_eq_false.mpr
      intro r hr
      simp only [Bool.and_eq_true, beq_iff_eq, not_and]
      intro h1 h2
      exact h r hr ⟨h1, h2⟩
    unfold DatabaseService.createAd
    rw [if_neg (by simp [hcf])]
    constructor
    · rfl
    · exact ⟨_, List.mem_append_right _ (List.mem_singleton_self _), rfl, rfl⟩

/-- Witness for C1 at a concrete state: re-inserting a stored (link 1, e)
pair is reported not newly inserted and changes nothing. -/
theorem claim_C1_dedup_per_query_witness :
    (∃ r ∈ ({ ads := [{ id := 1, link_id := 1, external_id := "e", title := "t",
                        ad_url := "u" }] } : DBState).ads,
      r.link_id = 1 ∧ r.external_id = "e") ∧
    DatabaseService.createAd
        { ads := [{ id := 1, link_id := 1, external_id := "e", title := "t", ad_url := "u" }] }
        1 { external_id := "e", title := "t", ad_url := "u" } =
      (none, { ads := [{ id := 1, link_id := 1, external_id := "e", title := "t",
                         ad_url := "u" }] }) :=
  ⟨by decide,
   claim_C1_dedup_per_query.2.1
     { ads := [{ id := 1, link_id := 1, external_id := "e", title := "t", ad_url := "u" }] }
     1 { external_id := "e", title := "t", ad_url := "u" } (by decide)⟩

/-- Finding by id commutes with an id-preserving conditional row update. -/
lemma find_map_update (links : List LinkRow) (linkId : Nat) (g : LinkRow → LinkRow)
    (hg : ∀ l, (g l).id = l.id) :
    (links.map (fun l => if l.id == linkId then g l else l)).find? (fun l => l.id == linkId) =
      (links.find? (fun l => l.id == linkId)).map g := by
  induction links with
  | nil => rfl
  | cons h t ih =>
    by_cases hb : (h.id == linkId) = true
    · have hgb : ((g h).id == linkId) = true := by rw [hg h]; exact hb
      simp only [List.map_cons]
      rw [if_pos hb, List.find?_cons, List.find?_cons, hgb, hb]
      rfl
    · have hb' : (h.id == linkId) = false := by simpa using hb
      simp only [List.map_cons]
      rw [if_neg hb, List.find?_cons, List.find?_cons, hb']
      exact ih

/-- Finding by id inside a filtered view returns the same row, provided the
first id-match satisfies the filter. -/
lemma find_filter_by_id (links : List LinkRow) (q : LinkRow → Bool) (linkId : Nat)
    (l' : LinkRow) (hf : links.find? (fun l => l.id == linkId) = some l')
    (hq : q l' = true) :
    (links.filter q).find? (fun l => l.id == linkId) = some l' := by
  induction links with
  | nil => simp at hf
  | cons h t ih =>
    by_cases hb : (h.id == linkId) = true
    · have hh : h = l' := by simpa [List.find?_cons, hb] using hf
      subst hh
      simp [List.filter_cons, hq, List.find?_cons, hb]
    · have hb' : (h.id == linkId) = false := by simpa using hb
      have hf' : t.find? (fun l => l.id == linkId) = some l' := by
        simpa [List.find?_cons, hb'] using hf
      by_cases hqh : q h = true
      · simp [List.filter_cons, hqh, List.find?_cons, hb', ih hf']
      · simp [List.filter_cons, hqh, ih hf']

/-- Looking up a row after an update of the last-polled timestamp. -/
lemma findLink_updateLastParsed (db : DBState) (linkId now : Nat) :
    findLink (DatabaseService.updateLastParsed db linkId now) linkId =
      (findLink db linkId).map (fun l => { l with last_parsed_at := some now }) := by
  unfold DatabaseService.updateLastParsed findLink
  exact find_map_update _ _ _ (fun l => rfl)

/-- Looking up a row after a failure-counter reset. -/
lemma findLink_resetErrorCount (db : DBState) (linkId : Nat) :
    findLink (DatabaseService.resetErrorCount db linkId) linkId =
      (findLink db linkId).map (fun l => { l with error_count := 0 }) := by
  unfold DatabaseService.resetErrorCount findLink
  exact find_map_update _ _ _ (fun l => rfl)

/-- Looking up a row after a failure-counter increment. -/
lemma findLink_incrementErrorCount (db : DBState) (linkId : Nat) :
    findLink (DatabaseService.incrementErrorCount db linkId) linkId =
      (findLink db linkId).map (fun l => { l with error_count := l.error_count + 1 }) := by
  unfold DatabaseService.incrementErrorCount findLink
  exact find_map_update _ _ _ (fun l => rfl)

/-- Looking up a row after a deactivation. -/
lemma findLink_markLinkInactive (db : DBState) (linkId : Nat) :
    findLink (DatabaseService.markLinkInactive db linkId) linkId =
      (findLink db linkId).map (fun l => { l with is_active := false }) := by
  unfold DatabaseService.markLinkInactive findLink
  exact find_map_update _ _ _ (fun l => rfl)

/-- processAd only ever touches the ads table and the notification state. -/
lemma processAd_links (now : Nat) (link : LinkRow) (st : StepResult) (a : AdData) :
    (processAd now link st a).db.links = st.db.links := by
  unfold processAd
  split
  · split
    · rename_i row db1 heq
      have hl : db1.links = st.db.links := by
        have h2 := createAd_links st.db link.id a
        rw [heq] at h2
        exact h2
      split
      · split
        · exact hl
        · exact hl
      · exact hl
    · rename_i db1 heq
      have hl : db1.links = st.db.links := by
        have h2 := createAd_links st.db link.id a
        rw [heq] at h2
        exact h2
      exact hl
  · rfl

/-- The whole per-ad loop leaves the links table unchanged. -/
lemma foldl_processAd_links (now : Nat) (link : LinkRow) (ads : List AdData)
    (st : StepResult) :
    (ads.foldl (processAd now link) st).db.links = st.db.links := by
  induction ads generalizing st with
  | nil => rfl
  | cons a rest ih => rw [List.foldl_cons, ih, processAd_links]

/-- The success path of parseLink rewrites the loaded row to a zero failure
counter and a fresh last-polled timestamp. -/
lemma parseLink_ok_findLink (now : Nat) (sched : SchedState) (db : DBState)
    (link : LinkRow) (ads : List AdData)
    (hfind : findLink db link.id = some link) :
    findLink (parseLink now sched db link (ParseOutcome.ok ads)).db link.id =
      some { link with error_count := 0, last_parsed_at := some now } := by
  show findLink (parseLinkSuccess now sched db link ads).db link.id = _
  rw [show parseLinkSuccess now sched db link ads =
      ads.foldl (processAd now link)
        { db := if 0 < link.error_count
            then DatabaseService.resetErrorCount
              (DatabaseService.updateLastParsed db link.id now) link.id
            else DatabaseService.updateLastParsed db link.id now,
          sched := sched, notifs := [] } from rfl]
  have hfold : ∀ st : StepResult,
      findLink (ads.foldl (processAd now link) st).db link.id =
        st.db.links.find? (fun l => l.id == link.id) := by
    intro st
    unfold findLink
    rw [foldl_processAd_links]
  rw [hfold]
  by_cases h0 : 0 < link.error_count
  · rw [if_pos h0]
    rw [show ∀ db0 : DBState, db0.links.find? (fun l => l.id == link.id) = findLink db0 link.id
        from fun _ => rfl]
    rw [findLink_resetErrorCount, findLink_updateLastParsed, hfind]
    rfl
  · have h0' : link.error_count = 0 := Nat.eq_zero_of_not_pos h0
    rw [if_neg h0]
    rw [show ∀ db0 : DBState, db0.links.find? (fun l => l.id == link.id) = findLink db0 link.id
        from fun _ => rfl]
    rw [findLink_updateLastParsed, hfind]
    simp only [Option.map_some', Option.some.injEq]
    rw [← h0']

/-- C2: any fully successful poll resets the failure counter to zero; any
failed poll increments it by one; a counter reaching the threshold five
marks the query inactive; and only active queries are loaded at the start
of a cycle, so a deactivated query is excluded. -/
theorem claim_C2_failure_counter (now : Nat) (sched : SchedState) (db : DBState)
    (link : LinkRow) (ads : List AdData) (m : String)
    (hfind : findLink db link.id = some link) :
    findLink (parseLink now sched db link (ParseOutcome.ok ads)).db link.id =
      some { link with error_count := 0, last_parsed_at := some now } ∧
    findLink (parseLink now sched db link (ParseOutcome.err m)).db link.id =
      some { link with error_count := link.error_count + 1,
                       is_active := if 5 ≤ link.error_count + 1 then false
                                    else link.is_active } ∧
    (∀ l, l ∈ DatabaseService.getActiveLinks db ↔ l ∈ db.links ∧ l.is_active = true) ∧
    (5 ≤ link.error_count + 1 →
      ∀ l ∈ DatabaseService.getActiveLinks
          (parseLink now sched db link (ParseOutcome.err m)).db,
        l.id ≠ link.id) := by
  have hinc : findLink (DatabaseService.incrementErrorCount db link.id) link.id =
      some { link with error_count := link.error_count + 1 } := by
    rw [findLink_incrementErrorCount, hfind]
    rfl
  have hscrut : ((DatabaseService.incrementErrorCount db link.id).links.filter
      (fun l => l.user_id == link.user_id)).find? (fun l => l.id == link.id) =
      some { link with error_count := link.error_count + 1 } :=
    find_filter_by_id _ _ _ _ hinc (by simp)
  have hcatch : findLink (parseLinkCatch db link) link.id =
      some { link with error_count := link.error_count + 1,
                       is_active := if 5 ≤ link.error_count + 1 then false
                                    else link.is_active } := by
    simp only [parseLinkCatch, DatabaseService.getUserLinks]
    rw [hscrut]
    show findLink
        (if 5 ≤ ({ link with error_count := link.error_count + 1 } : LinkRow).error_count
          then DatabaseService.markLinkInactive
            (DatabaseService.incrementErrorCount db link.id) link.id
          else DatabaseService.incrementErrorCount db link.id) link.id = _
    by_cases h5 : 5 ≤ link.error_count + 1
    · rw [if_pos h5, if_pos h5, findLink_markLinkInactive, hinc]
      rfl
    · rw [if_neg h5, if_neg h5, hinc]
  refine ⟨parseLink_ok_findLink now sched db link ads hfind, hcatch, ?_, ?_⟩
  · intro l
    unfold DatabaseService.getActiveLinks
    exact List.mem_filter
  · intro h5 l hl
    have heq : parseLinkCatch db link =
        DatabaseService.markLinkInactive
          (DatabaseService.incrementErrorCount db link.id) link.id := by
      simp only [parseLinkCatch, DatabaseService.getUserLinks]
      rw [hscrut]
      show (if 5 ≤ ({ link with error_count := link.error_count + 1 } : LinkRow).error_count
          then DatabaseService.markLinkInactive
            (DatabaseService.incrementErrorCount db link.id) link.id
          else DatabaseService.incrementErrorCount db link.id) = _
      rw [if_pos h5]
    rw [show (parseLink now sched db link (ParseOutcome.err m)).db = parseLinkCatch db link
        from rfl, heq] at hl
    unfold DatabaseService.getActiveLinks at hl
    rcases List.mem_filter.mp hl with ⟨hmem, hact⟩
    unfold DatabaseService.markLinkInactive at hmem
    rcases List.mem_map.mp hmem with ⟨orig, horig, hor⟩
    by_cases hoid : (orig.id == link.id) = true
    · rw [if_pos hoid] at hor
      rw [← hor] at hact
      simp at hact
    · rw [if_neg hoid] at hor
      intro hid
      rw [← hor] at hid
      have hne : orig.id ≠ link.id := by simpa using hoid
      exact hne hid

/-- Witness for C2 at a concrete state: a fifth consecutive failure takes
the counter from four to five and deactivates the link. -/
theorem claim_C2_failure_counter_witness :
    (findLink { links := [{ id := 1, user_id := 9, error_count := 4 }] } 1 =
      some { id := 1, user_id := 9, error_count := 4 }) ∧
    findLink (parseLink 0 {} { links := [{ id := 1, user_id := 9, error_count := 4 }] }
        { id := 1, user_id := 9, error_count := 4 } (ParseOutcome.err "boom")).db 1 =
      some { id := 1, user_id := 9, error_count := 5, is_active := false } :=
  ⟨by decide,
   ((claim_C2_failure_counter 0 {} { links := [{ id := 1, user_id := 9, error_count := 4 }] }
       { id := 1, user_id := 9, error_count := 4 } [] "boom" (by decide)).2.1).trans
     (by decide)⟩

/-- C5: an extraction that succeeds with zero records is a fully successful
poll: the Kufar pipeline returns an empty record list (no error) when both
API responses carry no items, and the scheduler success path then updates
the last-polled timestamp and leaves the failure counter at zero, with no
notification sent. -/
theorem claim_C5_zero_records_success (now : Nat) (sched : SchedState) (db : DBState)
    (link : LinkRow) (urlObj : URLParts)
    (hfind : findLink db link.id = some link) :
    kufarParseUrl urlObj [] [] = [] ∧
    findLink (parseLink now sched db link (ParseOutcome.ok [])).db link.id =
      some { link with error_count := 0, last_parsed_at := some now } ∧
    (parseLink now sched db link (ParseOutcome.ok [])).notifs = [] :=
  ⟨rfl, parseLink_ok_findLink now sched db link [] hfind, rfl⟩

/-- Witness for C5 at a concrete state: a zero-record poll resets an
existing failure count of one and stamps the poll time. -/
theorem claim_C5_zero_records_success_witness :
    (findLink { links := [{ id := 2, user_id := 3, error_count := 1 }] } 2 =
      some { id := 2, user_id := 3, error_count := 1 }) ∧
    kufarParseUrl { scheme := "https", hostname := "www.kufar.by", pathname := "/l/minsk",
                    searchParams := [] } [] [] = [] ∧
    findLink (parseLink 7 {} { links := [{ id := 2, user_id := 3, error_count := 1 }] }
        { id := 2, user_id := 3, error_count := 1 } (ParseOutcome.ok [])).db 2 =
      some { id := 2, user_id := 3, error_count := 0, last_parsed_at := some 7 } :=
  ⟨by decide,
   (claim_C5_zero_records_success 7 {} { links := [{ id := 2, user_id := 3, error_count := 1 }] }
     { id := 2, user_id := 3, error_count := 1 }
     { scheme := "https", hostname := "www.kufar.by", pathname := "/l/minsk",
       searchParams := [] } (by decide)).1,
   ((claim_C5_zero_records_success 7 {} { links := [{ id := 2, user_id := 3, error_count := 1 }] }
      { id := 2, user_id := 3, error_count := 1 }
      { scheme := "https", hostname := "www.kufar.by", pathname := "/l/minsk",
        searchParams := [] } (by decide)).2.1).trans (by decide)⟩

/-- The start count of a concatenated trace adds. -/
lemma countStarts_append (a b : List SchedulerEvent) :
    countStarts (a ++ b) = countStarts a + countStarts b := by
  simp [countStarts, List.filter_append]

/-- The finish count of a concatenated trace adds. -/
lemma countFinishes_append (a b : List SchedulerEvent) :
    countFinishes (a ++ b) = countFinishes a + countFinishes b := by
  simp [countFinishes, List.filter_append]

/-- C9: at most one polling cycle is ever in flight. Over any input
sequence, the cycles started balance the cycles finished plus the at most
one still running; a tick that arrives while a cycle runs leaves the state
unchanged and emits only the warning; a tick while idle starts a cycle; and
completion clears the running flag whether the cycle succeeded or not. -/
theorem claim_C9_single_cycle (inputs : List SchedulerInput) (ok : Bool) :
    (∀ running : Bool,
      countStarts (schedulerRun running inputs).2 + (if running then 1 else 0) =
        countFinishes (schedulerRun running inputs).2 +
          (if (schedulerRun running inputs).1 then 1 else 0)) ∧
    schedulerStep true SchedulerInput.tick = (true, [SchedulerEvent.warnSkipped]) ∧
    schedulerStep false SchedulerInput.tick = (true, [SchedulerEvent.cycleStarted]) ∧
    schedulerStep true (SchedulerInput.cycleDone ok) =
      (false, [SchedulerEvent.cycleFinished ok]) := by
  refine ⟨?_, rfl, rfl, rfl⟩
  induction inputs with
  | nil =>
    intro running
    simp [schedulerRun, countStarts, countFinishes]
  | cons i rest ih =>
    intro running
    cases i with
    | tick =>
      cases running with
      | true =>
        have h := ih true
        simp [schedulerRun, schedulerStep, countStarts_append, countFinishes_append,
          countStarts, countFinishes] at h ⊢
        omega
      | false =>
        have h := ih true
        simp [schedulerRun, schedulerStep, countStarts_append, countFinishes_append,
          countStarts, countFinishes] at h ⊢
        omega
    | cycleDone okk =>
      cases running with
      | true =>
        have h := ih false
        simp [schedulerRun, schedulerStep, countStarts_append, countFinishes_append,
          countStarts, countFinishes] at h ⊢
        omega
      | false =>
        have h := ih false
        simp [schedulerRun, schedulerStep, countStarts_append, countFinishes_append,
          countStarts, countFinishes] at h ⊢
        omega

/-- A fold preserves any property its step preserves. -/
lemma foldl_preserves {α β : Type} (P : β → Prop) (f : β → α → β)
    (hf : ∀ b a, P b → P (f b a)) : ∀ (l : List α) (b : β), P b → P (l.foldl f b)
  | [], _, h => h
  | a :: t, b, h => foldl_preserves P f hf t (f b a) (hf b a h)

/-- Stored ads survive an insert attempt. -/
lemma createAd_ads_mono (db : DBState) (linkId : Nat) (a : AdData) (r : AdRow)
    (h : r ∈ db.ads) : r ∈ (DatabaseService.createAd db linkId a).2.ads := by
  unfold DatabaseService.createAd
  split
  · exact h
  · exact List.mem_append_left _ h

/-- Stored ads survive one step of the per-ad loop. -/
lemma processAd_ads_mono (now : Nat) (link : LinkRow) (st : StepResult) (a : AdData)
    (r : AdRow) (h : r ∈ st.db.ads) : r ∈ (processAd now link st a).db.ads := by
  unfold processAd
  split
  · split
    · rename_i row db1 heq
      have hsub : r ∈ db1.ads := by
        have h2 := createAd_ads_mono st.db link.id a r h
        rw [heq] at h2
        exact h2
      split
      · split
        · exact hsub
        · exact hsub
      · exact hsub
    · rename_i db1 heq
      have hsub : r ∈ db1.ads := by
        have h2 := createAd_ads_mono st.db link.id a r h
        rw [heq] at h2
        exact h2
      exact hsub
  · exact h

/-- The failure-accounting path never touches the ads table. -/
lemma parseLinkCatch_ads (db : DBState) (link : LinkRow) :
    (parseLinkCatch db link).ads = db.ads := by
  simp only [parseLinkCatch]
  split
  · split <;> rfl
  · rfl

/-- Stored ads survive a whole per-query step, whatever its outcome. -/
lemma parseLink_ads_mono (now : Nat) (sched : SchedState) (db : DBState) (link : LinkRow)
    (o : ParseOutcome) (r : AdRow) (h : r ∈ db.ads) :
    r ∈ (parseLink now sched db link o).db.ads := by
  cases o with
  | noParser => exact h
  | err m =>
    show r ∈ (parseLinkCatch db link).ads
    rw [parseLinkCatch_ads]
    exact h
  | ok ads =>
    show r ∈ (parseLinkSuccess now sched db link ads).db.ads
    rw [show parseLinkSuccess now sched db link ads =
        ads.foldl (processAd now link)
          { db := if 0 < link.error_count
              then DatabaseService.resetErrorCount
                (DatabaseService.updateLastParsed db link.id now) link.id
              else DatabaseService.updateLastParsed db link.id now,
            sched := sched, notifs := [] } from rfl]
    apply foldl_preserves (fun st => r ∈ st.db.ads) _ (fun st a => processAd_ads_mono now link st a r)
    show r ∈ (if 0 < link.error_count
        then DatabaseService.resetErrorCount
          (DatabaseService.updateLastParsed db link.id now) link.id
        else DatabaseService.updateLastParsed db link.id now).ads
    split <;> exact h

/-- A successful insertion through createAd stores a row carrying the
record's external id. -/
lemma createAd_some_mem (db : DBState) (linkId : Nat) (a : AdData) (row : AdRow)
    (db' : DBState) (heq : DatabaseService.createAd db linkId a = (some row, db')) :
    row ∈ db'.ads ∧ row.external_id = a.external_id := by
  unfold DatabaseService.createAd at heq
  split at heq
  · cases heq
  · rcases Prod.mk.injEq _ _ _ _ ▸ heq with h
    have h1 := congrArg Prod.fst heq
    have h2 := congrArg Prod.snd heq
    simp only at h1 h2
    cases h1
    rw [← h2]
    exact ⟨List.mem_append_right _ (List.mem_singleton_self _), rfl⟩

/-- After processing one record, some stored row carries its external id. -/
lemma processAd_self (now : Nat) (link : LinkRow) (st : StepResult) (a : AdData) :
    ∃ r ∈ (processAd now link st a).db.ads, r.external_id = a.external_id := by
  unfold processAd
  split
  · rename_i hn
    split
    · rename_i row db1 heq
      have hmem := createAd_some_mem st.db link.id a row db1 heq
      split
      · split
        · exact ⟨row, hmem.1, hmem.2⟩
        · exact ⟨row, hmem.1, hmem.2⟩
      · exact ⟨row, hmem.1, hmem.2⟩
    · rename_i db1 heq
      unfold DatabaseService.createAd at heq
      split at heq
      · rename_i hconf
        rcases List.any_eq_true.mp hconf with ⟨r, hr, hpair⟩
        simp only [Bool.and_eq_true, beq_iff_eq] at hpair
        unfold DatabaseService.isNewAd at hn
        rw [Bool.not_eq_true'] at hn
        have := List.any_eq_false.mp hn r hr
        simp only [beq_iff_eq] at this
        exact absurd hpair.2 this
      · cases heq
  · rename_i hn
    unfold DatabaseService.isNewAd at hn
    have hn' : st.db.ads.any (fun r => r.external_id == a.external_id) = true := by
      cases hany : st.db.ads.any (fun r => r.external_id == a.external_id) with
      | true => rfl
      | false => rw [hany] at hn; exact absurd rfl hn
    rcases List.any_eq_true.mp hn' with ⟨r, hr, hext⟩
    exact ⟨r, hr, by simpa using hext⟩

/-- Every record of a successfully extracted list ends up represented in
the ads table after the per-ad loop. -/
lemma foldl_processAd_self (now : Nat) (link : LinkRow) :
    ∀ (ads : List AdData) (st : StepResult) (a : AdData), a ∈ ads →
      ∃ r ∈ (ads.foldl (processAd now link) st).db.ads, r.external_id = a.external_id := by
  intro ads
  induction ads with
  | nil => intro st a h; exact absurd h (List.not_mem_nil a)
  | cons b rest ih =>
    intro st a h
    rcases List.mem_cons.mp h with heq | h'
    · subst heq
      rw [List.foldl_cons]
      refine foldl_preserves
        (fun st2 : StepResult => ∃ r ∈ st2.db.ads, r.external_id = a.external_id)
        (processAd now link) ?_ rest (processAd now link st a)
        (processAd_self now link st a)
      intro st' e hp
      rcases hp with ⟨r, hr, hext⟩
      exact ⟨r, processAd_ads_mono now link st' e r hr, hext⟩
    · rw [List.foldl_cons]
      exact ih (processAd now link st b) a h'

/-- A successful per-query step leaves each of its records represented. -/
lemma parseLink_ok_persists (now : Nat) (sched : SchedState) (db : DBState)
    (link : LinkRow) (ads : List AdData) (a : AdData) (ha : a ∈ ads) :
    ∃ r ∈ (parseLink now sched db link (ParseOutcome.ok ads)).db.ads,
      r.external_id = a.external_id := by
  show ∃ r ∈ (parseLinkSuccess now sched db link ads).db.ads, r.external_id = a.external_id
  exact foldl_processAd_self now link ads _ a ha

/-- The chunks of a list flatten back to the list. -/
lemma chunksOf_flatten (n : Nat) (l : List α) : (chunksOf n l).flatten = l := by
  induction l using chunksOf.induct n with
  | case1 => simp [chunksOf]
  | case2 x xs ih =>
    rw [chunksOf, List.flatten_cons, ih, List.cons_append, List.take_append_drop]

/-- A whole cycle is the flat left fold of the per-entry step over all
batches in order. -/
lemma runParsing_eq (now : Nat) (sched : SchedState) (db : DBState)
    (entries : List (LinkRow × ParseOutcome)) :
    runParsing now sched db entries =
      entries.foldl (fun acc e =>
        let r := parseLink now acc.sched acc.db e.1 e.2
        { db := r.db, sched := r.sched, notifs := acc.notifs ++ r.notifs })
        { db := db, sched := sched, notifs := [] } := by
  unfold runParsing
  rw [show (runBatch now) = (fun st batch => batch.foldl (fun acc e =>
      let r := parseLink now acc.sched acc.db e.1 e.2
      { db := r.db, sched := r.sched, notifs := acc.notifs ++ r.notifs }) st) from rfl]
  rw [← List.foldl_flatten, chunksOf_flatten]

/-- C4: a failing extraction is absorbed inside the per-query handler (the
try block surfaces the error, the handler turns it into failure accounting
and returns normally), stored ads are never lost by a cycle, and every
record of every successfully extracted query in any batch of the cycle is
represented in the ads table afterwards, regardless of other queries
failing. -/
theorem claim_C4_failure_isolation (now : Nat) (sched : SchedState) (db : DBState)
    (entries : List (LinkRow × ParseOutcome)) :
    (∀ link m, parseLinkTry now sched db link (ParseOutcome.err m) = Except.error m ∧
      parseLink now sched db link (ParseOutcome.err m) =
        { db := parseLinkCatch db link, sched := sched, notifs := [] }) ∧
    (∀ r ∈ db.ads, r ∈ (runParsing now sched db entries).db.ads) ∧
    (∀ link ads a, (link, ParseOutcome.ok ads) ∈ entries → a ∈ ads →
      ∃ r ∈ (runParsing now sched db entries).db.ads,
        r.external_id = a.external_id) := by
  refine ⟨fun link m => ⟨rfl, rfl⟩, ?_, ?_⟩
  · intro r hr
    rw [runParsing_eq]
    refine foldl_preserves (fun st : StepResult => r ∈ st.db.ads)
      (fun (acc : StepResult) (e : LinkRow × ParseOutcome) =>
        let r2 := parseLink now acc.sched acc.db e.1 e.2
        { db := r2.db, sched := r2.sched, notifs := acc.notifs ++ r2.notifs })
      ?_ entries { db := db, sched := sched, notifs := [] } hr
    intro st e hp
    exact parseLink_ads_mono now st.sched st.db e.1 e.2 r hp
  · rw [runParsing_eq]
    have main : ∀ (es : List (LinkRow × ParseOutcome)) (st : StepResult)
        (link : LinkRow) (ads : List AdData) (a : AdData),
        (link, ParseOutcome.ok ads) ∈ es → a ∈ ads →
        ∃ r ∈ (es.foldl (fun acc e =>
            let r := parseLink now acc.sched acc.db e.1 e.2
            { db := r.db, sched := r.sched, notifs := acc.notifs ++ r.notifs }) st).db.ads,
          r.external_id = a.external_id := by
      intro es
      induction es with
      | nil => intro st link ads a h; exact absurd h (List.not_mem_nil _)
      | cons e rest ih =>
        intro st link ads a h ha
        rcases List.mem_cons.mp h with heq | h'
        · subst heq
          rw [List.foldl_cons]
          refine foldl_preserves
            (fun st2 : StepResult => ∃ r ∈ st2.db.ads, r.external_id = a.external_id)
            (fun (acc : StepResult) (e : LinkRow × ParseOutcome) =>
              let r2 := parseLink now acc.sched acc.db e.1 e.2
              { db := r2.db, sched := r2.sched, notifs := acc.notifs ++ r2.notifs })
            ?_ rest _ ?_
          · intro st' e2 hp
            rcases hp with ⟨r, hr, hext⟩
            exact ⟨r, parseLink_ads_mono now st'.sched st'.db e2.1 e2.2 r hr, hext⟩
          · show ∃ r ∈ (parseLink now st.sched st.db link (ParseOutcome.ok ads)).db.ads,
              r.external_id = a.external_id
            exact parseLink_ok_persists now st.sched st.db link ads a ha
        · rw [List.foldl_cons]
          exact ih _ link ads a h' ha
    intro link ads a h ha
    exact main entries _ link ads a h ha

/-- Witness for C4 at a concrete two-link batch: the first link fails, the
second still gets its record persisted. -/
theorem claim_C4_failure_isolation_witness :
    (({ id := 2, user_id := 3 } : LinkRow),
        ParseOutcome.ok [{ external_id := "x9", title := "t", ad_url := "u" }]) ∈
      [(({ id := 1, user_id := 3 } : LinkRow), ParseOutcome.err "boom"),
       (({ id := 2, user_id := 3 } : LinkRow),
        ParseOutcome.ok [{ external_id := "x9", title := "t", ad_url := "u" }])] ∧
    ∃ r ∈ (runParsing 0 {} {}
        [(({ id := 1, user_id := 3 } : LinkRow), ParseOutcome.err "boom"),
         (({ id := 2, user_id := 3 } : LinkRow),
          ParseOutcome.ok [{ external_id := "x9", title := "t", ad_url := "u" }])]).db.ads,
      r.external_id = "x9" :=
  ⟨by decide,
   (claim_C4_failure_isolation 0 {} {}
      [(({ id := 1, user_id := 3 } : LinkRow), ParseOutcome.err "boom"),
       (({ id := 2, user_id := 3 } : LinkRow),
        ParseOutcome.ok [{ external_id := "x9", title := "t", ad_url := "u" }])]).2.2
     { id := 2, user_id := 3 } [{ external_id := "x9", title := "t", ad_url := "u" }]
     { external_id := "x9", title := "t", ad_url := "u" } (by decide) (by decide)⟩

/-- C3: at most five notifications per query per cycle; the delivered
records are the most recently published among the newly inserted set (every
withheld record's timestamp is at most every delivered one's); delivery is
in chronological order, oldest first; and withheld plus delivered is a
permutation of the new set. -/
theorem claim_C3_notification_cap (newAds : List AdRow) :
    (adsToNotify newAds).length = min newAds.length 5 ∧
    List.Sorted adLe (adsToNotify newAds) ∧
    (∀ a ∈ (sortAdsByDate newAds).take ((sortAdsByDate newAds).length - 5),
      ∀ b ∈ adsToNotify newAds, pubKey a ≤ pubKey b) ∧
    ((sortAdsByDate newAds).take ((sortAdsByDate newAds).length - 5) ++
      adsToNotify newAds).Perm newAds := by
  have hsorted : List.Sorted adLe (sortAdsByDate newAds) :=
    List.sorted_insertionSort adLe newAds
  have hperm : (sortAdsByDate newAds).Perm newAds := List.perm_insertionSort adLe newAds
  have hlen : (sortAdsByDate newAds).length = newAds.length := hperm.length_eq
  have hsplit := List.take_append_drop ((sortAdsByDate newAds).length - 5) (sortAdsByDate newAds)
  have hnot : adsToNotify newAds =
      (sortAdsByDate newAds).drop ((sortAdsByDate newAds).length - 5) := rfl
  refine ⟨?_, ?_, ?_, ?_⟩
  · rw [hnot, List.length_drop, hlen]
    omega
  · rw [hnot]
    exact hsorted.sublist (List.drop_sublist _ _)
  · have hp : List.Pairwise adLe
        ((sortAdsByDate newAds).take ((sortAdsByDate newAds).length - 5) ++
          (sortAdsByDate newAds).drop ((sortAdsByDate newAds).length - 5)) := by
      rw [hsplit]
      exact hsorted
    intro a ha b hb
    rw [hnot] at hb
    exact (List.pairwise_append.mp hp).2.2 a ha b hb
  · rw [hnot, hsplit]
    exact hperm

/-- Witness for C3 at a concrete run of six new ads: the sixth-newest is
withheld and its timestamp is at most the delivered ones'. -/
theorem claim_C3_notification_cap_witness :
    (({ id := 1, link_id := 1, external_id := "e1", title := "t", ad_url := "u",
        published_at := some 10 } : AdRow) ∈
      (sortAdsByDate
        [{ id := 3, link_id := 1, external_id := "e3", title := "t", ad_url := "u",
           published_at := some 30 },
         { id := 1, link_id := 1, external_id := "e1", title := "t", ad_url := "u",
           published_at := some 10 },
         { id := 6, link_id := 1, external_id := "e6", title := "t", ad_url := "u",
           published_at := some 60 },
         { id := 2, link_id := 1, external_id := "e2", title := "t", ad_url := "u",
           published_at := some 20 },
         { id := 5, link_id := 1, external_id := "e5", title := "t", ad_url := "u",
           published_at := some 50 },
         { id := 4, link_id := 1, external_id := "e4", title := "t", ad_url := "u",
           published_at := some 40 }]).take 1) ∧
    pubKey ({ id := 1, link_id := 1, external_id := "e1", title := "t", ad_url := "u",
              published_at := some 10 } : AdRow) ≤
      pubKey ({ id := 2, link_id := 1, external_id := "e2", title := "t", ad_url := "u",
                published_at := some 20 } : AdRow) :=
  ⟨by decide,
   (claim_C3_notification_cap
      [{ id := 3, link_id := 1, external_id := "e3", title := "t", ad_url := "u",
         published_at := some 30 },
       { id := 1, link_id := 1, external_id := "e1", title := "t", ad_url := "u",
         published_at := some 10 },
       { id := 6, link_id := 1, external_id := "e6", title := "t", ad_url := "u",
         published_at := some 60 },
       { id := 2, link_id := 1, external_id := "e2", title := "t", ad_url := "u",
         published_at := some 20 },
       { id := 5, link_id := 1, external_id := "e5", title := "t", ad_url := "u",
         published_at := some 50 },
       { id := 4, link_id := 1, external_id := "e4", title := "t", ad_url := "u",
         published_at := some 40 }]).2.2.1
     { id := 1, link_id := 1, external_id := "e1", title := "t", ad_url := "u",
       published_at := some 10 } (by decide)
     { id := 2, link_id := 1, external_id := "e2", title := "t", ad_url := "u",
       published_at := some 20 } (by decide)⟩

end KufarBot
